import Mathlib

/-!
# Verification of the SanShan-Island stargazing site recommender

Shallow embedding of the core algorithms of the repository:

* `star_observation.py` — visibility filter (`can_observe_azimuth`),
  scoring engine (`calculate_score`), ranking (`rank_points`) and the
  recommendation orchestrator (`recommend_for_star`);
* `app.py` — the AHP weight resolver (`calculate_ahp_weights`);
* `terrain_service.py` — terrain suitability analyzer
  (`_check_occlusion`, `_analyze_spots`).

Python floats are modelled as real numbers (`ℝ`); the AHP resolver, whose
arithmetic is pure field arithmetic, is modelled over `ℚ` so that concrete
runs are decidable.  Python exceptions caught and turned into `None` are
modelled with `Option`.
-/

open Real List

namespace SanShan

/-- Python's `%` on floats with a positive modulus: `x % y = x - y*⌊x/y⌋`. -/
noncomputable def pyMod (x y : ℝ) : ℝ := x - y * ⌊x / y⌋

/-- `math.radians`. -/
noncomputable def radians (x : ℝ) : ℝ := x * π / 180

/-- `math.degrees`. -/
noncomputable def degrees (x : ℝ) : ℝ := x * 180 / π

/-- `math.atan2 y x` (the two-argument arctangent, C library semantics). -/
noncomputable def atan2 (y x : ℝ) : ℝ :=
  if 0 < x then arctan (y / x)
  else if x < 0 ∧ 0 ≤ y then arctan (y / x) + π
  else if x < 0 ∧ y < 0 then arctan (y / x) - π
  else if x = 0 ∧ 0 < y then π / 2
  else if x = 0 ∧ y < 0 then -(π / 2)
  else 0

/-- Python's `round(x, 1)` (rounding to one decimal place). -/
noncomputable def pyRound1 (x : ℝ) : ℝ := (round (10 * x) : ℤ) / 10

theorem pyMod_nonneg {y : ℝ} (x : ℝ) (hy : 0 < y) : 0 ≤ pyMod x y := by
  have h := Int.floor_le (x / y)
  have : y * (⌊x / y⌋ : ℝ) ≤ y * (x / y) := by
    exact mul_le_mul_of_nonneg_left h hy.le
  rw [mul_div_cancel₀ _ hy.ne.symm] at this
  simpa [pyMod] using this

theorem pyMod_lt {y : ℝ} (x : ℝ) (hy : 0 < y) : pyMod x y < y := by
  have h := Int.lt_floor_add_one (x / y)
  have : y * (x / y) < y * ((⌊x / y⌋ : ℝ) + 1) := by
    exact mul_lt_mul_of_pos_left h hy
  rw [mul_div_cancel₀ _ hy.ne.symm] at this
  simp only [pyMod]
  nlinarith

theorem pyMod_eq_self {x y : ℝ} (h0 : 0 ≤ x) (hxy : x < y) : pyMod x y = x := by
  have hy : 0 < y := lt_of_le_of_lt h0 hxy
  have hfloor : ⌊x / y⌋ = 0 := by
    rw [Int.floor_eq_zero_iff]
    constructor
    · exact div_nonneg h0 hy.le
    · exact (div_lt_one hy).2 hxy
  simp [pyMod, hfloor]

/-! ## Data model: `ObservationPoint` (star_observation.py, class ObservationPoint) -/

/-- An observation point loaded from `data.csv`. -/
structure ObservationPoint where
  longitude : ℝ
  latitude : ℝ
  difficulty : String
  view_start : ℝ
  view_end : ℝ
  name : String

/-- `ObservationPoint.can_observe_azimuth`: the azimuth is first normalised
with `% 360`; for a non-wrapping window observability is
`view_start <= azimuth <= view_end`, for a wrapping window it is
`azimuth >= view_start or azimuth <= view_end`. -/
noncomputable def canObserveAzimuth (p : ObservationPoint) (azimuth : ℝ) : Prop :=
  let a := pyMod azimuth 360
  if p.view_start ≤ p.view_end then
    p.view_start ≤ a ∧ a ≤ p.view_end
  else
    a ≥ p.view_start ∨ a ≤ p.view_end

instance : Inhabited ObservationPoint := ⟨⟨0, 0, "", 0, 0, ""⟩⟩

/-! ## Scoring engine (star_observation.py, `calculate_score`) -/

/-- `_calculate_bearing` (identical in star_observation.py and
terrain_service.py): forward azimuth between two points, normalised to
`[0, 360)` by `(degrees(atan2(y, x)) + 360) % 360`. -/
noncomputable def calculateBearing (lat1 lon1 lat2 lon2 : ℝ) : ℝ :=
  let y := Real.sin (radians (lon2 - lon1)) * Real.cos (radians lat2)
  let x := Real.cos (radians lat1) * Real.sin (radians lat2) -
      Real.sin (radians lat1) * Real.cos (radians lat2) * Real.cos (radians (lon2 - lon1))
  pyMod (degrees (atan2 y x) + 360) 360

/-- The recurring pattern `d = abs(a - b); if d > 180: d = 360 - d`. -/
noncomputable def angleDelta (a b : ℝ) : ℝ :=
  let d := |a - b|
  if 180 < d then 360 - d else d

/-- The categorical difficulty-to-cost mapping in `calculate_score`:
`简单` (easy) ↦ 20, `中等` (medium) ↦ 50, `困难` (hard) ↦ 80, default 50. -/
noncomputable def difficultyVal (d : String) : ℝ :=
  if d = "简单" then 20 else if d = "中等" then 50 else if d = "困难" then 80 else 50

/-- The view-window centre computed by `calculate_score`:
`(view_start + view_end) / 2` for a direct window, and
`((view_start + view_end + 360) / 2) % 360` for a wrapping window. -/
noncomputable def viewCenter (p : ObservationPoint) : ℝ :=
  if p.view_start ≤ p.view_end then (p.view_start + p.view_end) / 2
  else pyMod ((p.view_start + p.view_end + 360) / 2) 360

/-- The view-window width computed by `calculate_score`. -/
noncomputable def viewRange (p : ObservationPoint) : ℝ :=
  if p.view_start ≤ p.view_end then p.view_end - p.view_start
  else p.view_end + 360 - p.view_start

set_option linter.unusedVariables false in
/-- `calculate_score(point, azimuth, altitude)`: geographic match (0–40),
view-centrality (0–40) and difficulty (0–20) scores, summed.  The centroid
`(avg_lat, avg_lon)` of the loaded points is part of the selector's state and
is passed explicitly here.  The `altitude` argument is accepted but unused,
exactly as in the source. -/
noncomputable def calculateScore (avgLat avgLon : ℝ) (p : ObservationPoint)
    (azimuth altitude : ℝ) : ℝ :=
  let pointAzimuth := calculateBearing avgLat avgLon p.latitude p.longitude
  let locationMatchScore := max 0 (40 * (1 - angleDelta azimuth pointAzimuth / 180))
  let viewAngleDiff := angleDelta azimuth (viewCenter p)
  let centrality :=
    if 0 < viewRange p then max 0 (1 - viewAngleDiff / (viewRange p / 2)) else 1
  let viewPositionScore := centrality * 40
  let difficultyScore := (100 - difficultyVal p.difficulty) * 0.2
  locationMatchScore + viewPositionScore + difficultyScore

/-- The geographic-alignment sub-score of `calculate_score` rescaled to the
0–100 range (the source stores it pre-multiplied by its weight 0.4). -/
noncomputable def geographicSubscore (avgLat avgLon : ℝ) (p : ObservationPoint)
    (azimuth : ℝ) : ℝ :=
  max 0 (100 *
    (1 - angleDelta azimuth (calculateBearing avgLat avgLon p.latitude p.longitude) / 180))

/-- The view-centrality sub-score of `calculate_score` rescaled to the 0–100
range (the source stores it pre-multiplied by its weight 0.4). -/
noncomputable def viewSubscore (p : ObservationPoint) (azimuth : ℝ) : ℝ :=
  (if 0 < viewRange p then
    max 0 (1 - angleDelta azimuth (viewCenter p) / (viewRange p / 2))
  else 1) * 100

/-- The accessibility sub-score of `calculate_score` rescaled to the 0–100
range (the source stores it pre-multiplied by its weight 0.2). -/
noncomputable def accessibilitySubscore (p : ObservationPoint) : ℝ :=
  100 - difficultyVal p.difficulty

/-! ## Ranking and recommendation (star_observation.py) -/

/-- Descending comparison by a real-valued key; `x` may precede `y` iff
`f y ≤ f x`.  `list.sort(key=…, reverse=True)` is a stable sort with respect
to this relation. -/
def scoreDesc {α : Type} (f : α → ℝ) : α → α → Prop := fun x y => f y ≤ f x

instance {α : Type} (f : α → ℝ) : IsTotal α (scoreDesc f) :=
  ⟨fun a b => le_total (f b) (f a)⟩

instance {α : Type} (f : α → ℝ) : IsTrans α (scoreDesc f) :=
  ⟨fun _ _ _ h1 h2 => le_trans h2 h1⟩

noncomputable instance {α : Type} (f : α → ℝ) : DecidableRel (scoreDesc f) :=
  fun _ _ => Classical.propDecidable _

/-- `rank_points`: score every point, then sort the `(point, score)` pairs by
score, descending; Python's `list.sort` is stable, modelled here by the
stable `insertionSort`. -/
noncomputable def rankPoints (avgLat avgLon : ℝ) (points : List ObservationPoint)
    (azimuth altitude : ℝ) : List (ObservationPoint × ℝ) :=
  insertionSort (scoreDesc Prod.snd)
    (points.map (fun p => (p, calculateScore avgLat avgLon p azimuth altitude)))

open Classical in
/-- `find_suitable_points`: keep the points whose view window covers the
azimuth. -/
noncomputable def findSuitablePoints (points : List ObservationPoint)
    (azimuth : ℝ) : List ObservationPoint :=
  points.filter (fun p => decide (canObserveAzimuth p azimuth))

/-- The fields of the dictionary built by `get_star_info` that the
orchestrator reads: the target's horizontal coordinates.  The dictionary's
`observable` entry is `bool(altitude > 0)` and is inlined below. -/
structure StarInfo where
  azimuth : ℝ
  altitude : ℝ

/-- The dictionary returned by `recommend_for_star` on success: the star
info, the best point with its score, and the full ranking. -/
structure Recommendation where
  starInfo : StarInfo
  bestPoint : ObservationPoint × ℝ
  allPoints : List (ObservationPoint × ℝ)

open Classical in
/-- `recommend_for_star`.  Resolving the star name through astropy/Simbad is
an external collaborator; its outcome (`None` or a star-info dictionary) is
the `starInfo` argument.  Returns `none` when resolution failed, when the
target is not observable (`observable` is `altitude > 0`), or when no point
covers the azimuth; otherwise the ranking's head (`ranked_points[0]`) is the
best point. -/
noncomputable def recommendForStar (avgLat avgLon : ℝ)
    (points : List ObservationPoint) (starInfo : Option StarInfo) :
    Option Recommendation :=
  match starInfo with
  | none => none
  | some si =>
    if ¬ 0 < si.altitude then none
    else
      let suitable := findSuitablePoints points si.azimuth
      if suitable.isEmpty then none
      else
        let ranked := rankPoints avgLat avgLon suitable si.azimuth si.altitude
        some ⟨si, ranked.headI, ranked⟩

/-! ## AHP weight resolver (app.py, `calculate_ahp_weights`)

The 4×4 reciprocal comparison matrix is
`[[1, a, b, d], [1/a, 1, c, e], [1/b, 1/c, 1, f], [1/d, 1/e, 1/f, 1]]`
(criteria: location, view, difficulty, light pollution).  The source
computes the column sums, normalises each column to sum 1, and averages the
rows of the normalised matrix.  A `ZeroDivisionError` (a zero ratio while
building the matrix, or a zero column sum while normalising) is caught and
turned into `None`; this is modelled by the `Option` result.  The arithmetic
is exact field arithmetic, modelled over `ℚ`.
-/

/-- Sum of column 0 of the comparison matrix: `1 + 1/a + 1/b + 1/d`. -/
def ahpCol0 (a b d : ℚ) : ℚ := 1 + 1 / a + 1 / b + 1 / d

/-- Sum of column 1 of the comparison matrix: `a + 1 + 1/c + 1/e`. -/
def ahpCol1 (a c e : ℚ) : ℚ := a + 1 + 1 / c + 1 / e

/-- Sum of column 2 of the comparison matrix: `b + c + 1 + 1/f`. -/
def ahpCol2 (b c f : ℚ) : ℚ := b + c + 1 + 1 / f

/-- Sum of column 3 of the comparison matrix: `d + e + f + 1`. -/
def ahpCol3 (d e f : ℚ) : ℚ := d + e + f + 1

/-- `calculate_ahp_weights`: the four row averages of the column-normalised
comparison matrix, as `(location, view, difficulty, light_pollution)`. -/
def calculateAhpWeights (a b c d e f : ℚ) : Option (ℚ × ℚ × ℚ × ℚ) :=
  if a = 0 ∨ b = 0 ∨ c = 0 ∨ d = 0 ∨ e = 0 ∨ f = 0 then none
  else
    let c0 := ahpCol0 a b d
    let c1 := ahpCol1 a c e
    let c2 := ahpCol2 b c f
    let c3 := ahpCol3 d e f
    if c0 = 0 ∨ c1 = 0 ∨ c2 = 0 ∨ c3 = 0 then none
    else some
      ((1 / c0 + a / c1 + b / c2 + d / c3) / 4,
       (1 / a / c0 + 1 / c1 + c / c2 + e / c3) / 4,
       (1 / b / c0 + 1 / c / c1 + 1 / c2 + f / c3) / 4,
       (1 / d / c0 + 1 / e / c1 + 1 / f / c2 + 1 / c3) / 4)

/-! ## Terrain suitability analyzer (terrain_service.py) -/

/-- Island bounding box and water-level threshold (class constants of
`TerrainService`). -/
noncomputable def LAT_MIN : ℝ := 31.015

noncomputable def LAT_MAX : ℝ := 31.045

noncomputable def LON_MIN : ℝ := 120.275

noncomputable def LON_MAX : ℝ := 120.315

noncomputable def MIN_ELEVATION : ℝ := 5.0

/-- One entry of the cached elevation grid. -/
structure ElevationSample where
  latitude : ℝ
  longitude : ℝ
  elevation : ℝ

/-- `_calculate_distance`: haversine distance in metres. -/
noncomputable def calculateDistance (lat1 lon1 lat2 lon2 : ℝ) : ℝ :=
  let R : ℝ := 6371000
  let phi1 := radians lat1
  let phi2 := radians lat2
  let deltaPhi := radians (lat2 - lat1)
  let deltaLambda := radians (lon2 - lon1)
  let a := Real.sin (deltaPhi / 2) ^ 2 +
      Real.cos phi1 * Real.cos phi2 * Real.sin (deltaLambda / 2) ^ 2
  let c := 2 * atan2 (Real.sqrt a) (Real.sqrt (1 - a))
  R * c

/-- The body of `_check_occlusion`'s loop: `other` blocks `point`'s line of
sight.  The guards appear in source order: `other == point` is skipped, a
lower-or-equal occluder is skipped, the bearing must be within 10° of the
target azimuth, occluders closer than 10 m are ignored, and the implied
elevation angle must exceed the target altitude. -/
noncomputable def occludes (point other : ElevationSample)
    (targetAzimuth targetAltitude : ℝ) : Prop :=
  other ≠ point ∧
  ¬ other.elevation ≤ point.elevation ∧
  angleDelta (calculateBearing point.latitude point.longitude
    other.latitude other.longitude) targetAzimuth < 10 ∧
  ¬ calculateDistance point.latitude point.longitude
      other.latitude other.longitude < 10 ∧
  targetAltitude < degrees (atan2 (other.elevation - point.elevation)
    (calculateDistance point.latitude point.longitude
      other.latitude other.longitude))

/-- `_check_occlusion(point, all_points, target_azimuth, target_altitude)`.
`_analyze_spots` only calls it with both targets present, so the altitude is
a real here; a target above 60° altitude is never occluded. -/
noncomputable def checkOcclusion (point : ElevationSample)
    (allPoints : List ElevationSample) (targetAzimuth targetAltitude : ℝ) : Prop :=
  ¬ 60 < targetAltitude ∧
    ∃ other ∈ allPoints, occludes point other targetAzimuth targetAltitude

/-- Python's `max` over a list of floats (`max_ele`); only ever applied to a
non-empty list in the source, defaulting to 0 on the unreachable `[]`. -/
def pyMax : List ℝ → ℝ
  | [] => 0
  | x :: xs => xs.foldl max x

/-- One record of `_analyze_spots`' result list (the constant
`'type': 'wild'` field is omitted). -/
structure TerrainSpot where
  latitude : ℝ
  longitude : ℝ
  elevation : ℝ
  score : ℝ

/-- The occlusion exclusion in `_analyze_spots`' loop: applied only when
both a target azimuth and a target altitude were supplied. -/
noncomputable def occlusionApplies (p : ElevationSample)
    (valid : List ElevationSample) (targetAzimuth targetAltitude : Option ℝ) : Prop :=
  ∃ az alt, targetAzimuth = some az ∧ targetAltitude = some alt ∧
    checkOcclusion p valid az alt

/-- Elevation sub-score of `_analyze_spots`: `(elevation / max_ele) * 100`
when `max_ele > 0`, else 0. -/
noncomputable def elevationScore (p : ElevationSample) (maxEle : ℝ) : ℝ :=
  if 0 < maxEle then p.elevation / maxEle * 100 else 0

/-- Distance/edge sub-score of `_analyze_spots`: Euclidean distance in
degrees from the bounding-box centre, scaled by 1000 and capped at 100. -/
noncomputable def distScore (p : ElevationSample) : ℝ :=
  let centerLat := (LAT_MIN + LAT_MAX) / 2
  let centerLon := (LON_MIN + LON_MAX) / 2
  let dist := Real.sqrt ((p.latitude - centerLat) ^ 2 + (p.longitude - centerLon) ^ 2)
  min (dist * 1000) 100

/-- Direction sub-score of `_analyze_spots`: linear falloff of the angular
distance between the sample's bearing from the bounding-box centre and the
target azimuth; a neutral 50 when no target azimuth was supplied. -/
noncomputable def dirScore (p : ElevationSample) (targetAzimuth : Option ℝ) : ℝ :=
  match targetAzimuth with
  | some az =>
    let centerLat := (LAT_MIN + LAT_MAX) / 2
    let centerLon := (LON_MIN + LON_MAX) / 2
    let pointBearing := calculateBearing centerLat centerLon p.latitude p.longitude
    max 0 (100 * (1 - angleDelta pointBearing az / 180))
  | none => 50

/-- The composite score of `_analyze_spots`:
`0.3·elevation + 0.1·distance + 0.6·direction` with a target azimuth,
`0.7·elevation + 0.3·distance` without. -/
noncomputable def compositeScore (p : ElevationSample) (maxEle : ℝ)
    (targetAzimuth : Option ℝ) : ℝ :=
  match targetAzimuth with
  | some _ =>
    0.3 * elevationScore p maxEle + 0.1 * distScore p + 0.6 * dirScore p targetAzimuth
  | none => 0.7 * elevationScore p maxEle + 0.3 * distScore p

/-- The record appended for a surviving sample, with the composite score
rounded to one decimal. -/
noncomputable def mkSpot (p : ElevationSample) (maxEle : ℝ)
    (targetAzimuth : Option ℝ) : TerrainSpot :=
  ⟨p.latitude, p.longitude, p.elevation, pyRound1 (compositeScore p maxEle targetAzimuth)⟩

open Classical in
/-- `valid_spots = [p for p in points if p['elevation'] > MIN_ELEVATION]`. -/
noncomputable def validSpots (points : List ElevationSample) : List ElevationSample :=
  points.filter (fun p => decide (MIN_ELEVATION < p.elevation))

open Classical in
/-- `_analyze_spots(points, target_azimuth, target_altitude)`: filter out
samples at or below the water level, drop occluded samples (the loop's
`continue`), score the survivors, sort by score descending (stable) and keep
the first ten. -/
noncomputable def analyzeSpots (points : List ElevationSample)
    (targetAzimuth targetAltitude : Option ℝ) : List TerrainSpot :=
  let valid := validSpots points
  if valid.isEmpty then []
  else
    let maxEle := pyMax (valid.map (·.elevation))
    let scored := valid.foldl
      (fun acc p =>
        if occlusionApplies p valid targetAzimuth targetAltitude then acc
        else acc ++ [mkSpot p maxEle targetAzimuth])
      []
    (insertionSort (scoreDesc TerrainSpot.score) scored).take 10

/-! ## Visibility filter: claim C2 -/

theorem canObserve_unfold_wrap (p : ObservationPoint) (az : ℝ)
    (h : ¬ p.view_start ≤ p.view_end) :
    canObserveAzimuth p az ↔ pyMod az 360 ≥ p.view_start ∨ pyMod az 360 ≤ p.view_end := by
  simp only [canObserveAzimuth, if_neg h]

theorem canObserve_unfold_direct (p : ObservationPoint) (az : ℝ)
    (h : p.view_start ≤ p.view_end) :
    canObserveAzimuth p az ↔ p.view_start ≤ pyMod az 360 ∧ pyMod az 360 ≤ p.view_end := by
  simp only [canObserveAzimuth, if_pos h]

/-- **C2.** `can_observe_azimuth` first normalises the azimuth into
`[0, 360)` (so the answer is invariant under that normalisation); for a
direct window it holds iff `view_start ≤ azimuth ≤ view_end`, for a wrapping
window iff `azimuth ≥ view_start` or `azimuth ≤ view_end`.  Concretely, the
window 350°–10° admits azimuths 0, 355 and 5 and rejects 180, and the window
30°–90° admits 60 and rejects 10 and 100. -/
theorem canObserve_spec :
    (∀ az : ℝ, 0 ≤ pyMod az 360 ∧ pyMod az 360 < 360) ∧
    (∀ (p : ObservationPoint) (az : ℝ),
      canObserveAzimuth p az ↔ canObserveAzimuth p (pyMod az 360)) ∧
    (∀ (p : ObservationPoint) (az : ℝ), p.view_start ≤ p.view_end →
      (canObserveAzimuth p az ↔
        p.view_start ≤ pyMod az 360 ∧ pyMod az 360 ≤ p.view_end)) ∧
    (∀ (p : ObservationPoint) (az : ℝ), ¬ p.view_start ≤ p.view_end →
      (canObserveAzimuth p az ↔
        pyMod az 360 ≥ p.view_start ∨ pyMod az 360 ≤ p.view_end)) ∧
    canObserveAzimuth ⟨0, 0, "", 350, 10, ""⟩ 0 ∧
    canObserveAzimuth ⟨0, 0, "", 350, 10, ""⟩ 355 ∧
    canObserveAzimuth ⟨0, 0, "", 350, 10, ""⟩ 5 ∧
    ¬ canObserveAzimuth ⟨0, 0, "", 350, 10, ""⟩ 180 ∧
    canObserveAzimuth ⟨0, 0, "", 30, 90, ""⟩ 60 ∧
    ¬ canObserveAzimuth ⟨0, 0, "", 30, 90, ""⟩ 10 ∧
    ¬ canObserveAzimuth ⟨0, 0, "", 30, 90, ""⟩ 100 := by
  have hnorm : ∀ az : ℝ, pyMod (pyMod az 360) 360 = pyMod az 360 := fun az =>
    pyMod_eq_self (pyMod_nonneg az (by norm_num)) (pyMod_lt az (by norm_num))
  have hself : ∀ az : ℝ, 0 ≤ az → az < 360 → pyMod az 360 = az := fun az h1 h2 =>
    pyMod_eq_self h1 h2
  refine ⟨fun az => ⟨pyMod_nonneg az (by norm_num), pyMod_lt az (by norm_num)⟩,
    fun p az => ?_, fun p az h => canObserve_unfold_direct p az h,
    fun p az h => canObserve_unfold_wrap p az h, ?_, ?_, ?_, ?_, ?_, ?_, ?_⟩
  · simp only [canObserveAzimuth, hnorm]
  all_goals
    simp only [canObserveAzimuth,
      hself 0 (by norm_num) (by norm_num), hself 355 (by norm_num) (by norm_num),
      hself 5 (by norm_num) (by norm_num), hself 180 (by norm_num) (by norm_num),
      hself 60 (by norm_num) (by norm_num), hself 10 (by norm_num) (by norm_num),
      hself 100 (by norm_num) (by norm_num)]
  all_goals norm_num

/-! ## Scoring engine: claims C1 and C6 -/

theorem max40_eq (t : ℝ) : max 0 (40 * t) = 0.4 * max 0 (100 * t) := by
  rw [mul_max_of_nonneg _ _ (by norm_num : (0:ℝ) ≤ 0.4), mul_zero,
    show (0.4:ℝ) * (100 * t) = 40 * t by ring]

theorem calculateScore_eq_weighted (avgLat avgLon : ℝ) (p : ObservationPoint)
    (az alt : ℝ) :
    calculateScore avgLat avgLon p az alt =
      0.4 * geographicSubscore avgLat avgLon p az + 0.4 * viewSubscore p az +
        0.2 * accessibilitySubscore p := by
  simp only [calculateScore, geographicSubscore, viewSubscore, accessibilitySubscore]
  rw [max40_eq]
  ring

theorem angleDelta_mem (a b : ℝ) (h : |a - b| ≤ 360) :
    0 ≤ angleDelta a b ∧ angleDelta a b ≤ 180 := by
  simp only [angleDelta]
  split_ifs with hd
  · constructor <;> linarith
  · exact ⟨abs_nonneg _, by linarith [not_lt.1 hd]⟩

theorem calculateBearing_mem (lat1 lon1 lat2 lon2 : ℝ) :
    0 ≤ calculateBearing lat1 lon1 lat2 lon2 ∧
      calculateBearing lat1 lon1 lat2 lon2 < 360 := by
  simp only [calculateBearing]
  exact ⟨pyMod_nonneg _ (by norm_num), pyMod_lt _ (by norm_num)⟩

theorem geographicSubscore_mem (avgLat avgLon : ℝ) (p : ObservationPoint) (az : ℝ)
    (haz0 : 0 ≤ az) (haz1 : az ≤ 360) :
    0 ≤ geographicSubscore avgLat avgLon p az ∧
      geographicSubscore avgLat avgLon p az ≤ 100 := by
  have hb := calculateBearing_mem avgLat avgLon p.latitude p.longitude
  have habs : |az - calculateBearing avgLat avgLon p.latitude p.longitude| ≤ 360 :=
    abs_le.2 ⟨by linarith [hb.2], by linarith [hb.1]⟩
  have hd := angleDelta_mem az _ habs
  simp only [geographicSubscore]
  refine ⟨le_max_left _ _, max_le (by norm_num) ?_⟩
  nlinarith [hd.1]

theorem viewCenter_mem (p : ObservationPoint)
    (hs0 : 0 ≤ p.view_start) (hs1 : p.view_start ≤ 360)
    (he0 : 0 ≤ p.view_end) (he1 : p.view_end ≤ 360) :
    0 ≤ viewCenter p ∧ viewCenter p ≤ 360 := by
  simp only [viewCenter]
  split_ifs with h
  · constructor <;> linarith
  · exact ⟨pyMod_nonneg _ (by norm_num), (pyMod_lt _ (by norm_num)).le⟩

theorem viewSubscore_mem (p : ObservationPoint) (az : ℝ)
    (haz0 : 0 ≤ az) (haz1 : az ≤ 360)
    (hs0 : 0 ≤ p.view_start) (hs1 : p.view_start ≤ 360)
    (he0 : 0 ≤ p.view_end) (he1 : p.view_end ≤ 360) :
    0 ≤ viewSubscore p az ∧ viewSubscore p az ≤ 100 := by
  have hc := viewCenter_mem p hs0 hs1 he0 he1
  have habs : |az - viewCenter p| ≤ 360 := abs_le.2 ⟨by linarith [hc.2], by linarith [hc.1]⟩
  have hd := angleDelta_mem az _ habs
  simp only [viewSubscore]
  split_ifs with h
  · constructor
    · exact mul_nonneg (le_max_left _ _) (by norm_num)
    · have h1 : max 0 (1 - angleDelta az (viewCenter p) / (viewRange p / 2)) ≤ 1 := by
        apply max_le (by norm_num)
        have h2 : 0 ≤ angleDelta az (viewCenter p) / (viewRange p / 2) :=
          div_nonneg hd.1 (by linarith)
        linarith
      nlinarith
  · norm_num

theorem accessibilitySubscore_mem (p : ObservationPoint) :
    0 ≤ accessibilitySubscore p ∧ accessibilitySubscore p ≤ 100 := by
  simp only [accessibilitySubscore, difficultyVal]
  split_ifs <;> norm_num

/-- **C1.** (Documents the code bug.)  The scoring engine of
`star_observation.py` accepts no weights input at all: for every centroid,
point, azimuth and altitude the total score is the fixed convex combination
`0.4 · geographic + 0.4 · view + 0.2 · accessibility` of the three
normalised sub-scores, with no light-pollution term, so user-supplied AHP
weights cannot influence any candidate's score (and `app.py` passing a
third `weights` argument to `recommend_for_star` is a `TypeError`). -/
theorem calculateScore_fixed_weights (avgLat avgLon : ℝ) (p : ObservationPoint)
    (az alt : ℝ) :
    calculateScore avgLat avgLon p az alt =
      0.4 * geographicSubscore avgLat avgLon p az + 0.4 * viewSubscore p az +
        0.2 * accessibilitySubscore p :=
  calculateScore_eq_weighted avgLat avgLon p az alt

/-- **C6.** For an azimuth in the 0–360 range and a view window with bounds
in the 0–360 range, each sub-score of `calculate_score` (geographic
alignment, view centrality, accessibility) lies in `[0, 100]` once rescaled
to the 0–100 range, and the total is the convex combination
`0.4/0.4/0.2` of them, hence bounded by the largest sub-score and itself in
`[0, 100]`. -/
theorem score_bounded (avgLat avgLon : ℝ) (p : ObservationPoint) (az alt : ℝ)
    (haz0 : 0 ≤ az) (haz1 : az ≤ 360)
    (hs0 : 0 ≤ p.view_start) (hs1 : p.view_start ≤ 360)
    (he0 : 0 ≤ p.view_end) (he1 : p.view_end ≤ 360) :
    (0 ≤ geographicSubscore avgLat avgLon p az ∧
      geographicSubscore avgLat avgLon p az ≤ 100) ∧
    (0 ≤ viewSubscore p az ∧ viewSubscore p az ≤ 100) ∧
    (0 ≤ accessibilitySubscore p ∧ accessibilitySubscore p ≤ 100) ∧
    calculateScore avgLat avgLon p az alt =
      0.4 * geographicSubscore avgLat avgLon p az + 0.4 * viewSubscore p az +
        0.2 * accessibilitySubscore p ∧
    calculateScore avgLat avgLon p az alt ≤
      max (geographicSubscore avgLat avgLon p az)
        (max (viewSubscore p az) (accessibilitySubscore p)) ∧
    0 ≤ calculateScore avgLat avgLon p az alt ∧
    calculateScore avgLat avgLon p az alt ≤ 100 := by
  have hg := geographicSubscore_mem avgLat avgLon p az haz0 haz1
  have hv := viewSubscore_mem p az haz0 haz1 hs0 hs1 he0 he1
  have ha := accessibilitySubscore_mem p
  have hw := calculateScore_eq_weighted avgLat avgLon p az alt
  have hmg : geographicSubscore avgLat avgLon p az ≤
      max (geographicSubscore avgLat avgLon p az)
        (max (viewSubscore p az) (accessibilitySubscore p)) := le_max_left _ _
  have hmv : viewSubscore p az ≤
      max (geographicSubscore avgLat avgLon p az)
        (max (viewSubscore p az) (accessibilitySubscore p)) :=
    le_trans (le_max_left _ _) (le_max_right _ _)
  have hma : accessibilitySubscore p ≤
      max (geographicSubscore avgLat avgLon p az)
        (max (viewSubscore p az) (accessibilitySubscore p)) :=
    le_trans (le_max_right _ _) (le_max_right _ _)
  refine ⟨hg, hv, ha, hw, ?_, ?_, ?_⟩ <;> rw [hw] <;> linarith

/-- Witness for `score_bounded` at a concrete point and azimuth. -/
theorem score_bounded_witness :
    (0:ℝ) ≤ 90 ∧ (90:ℝ) ≤ 360 ∧
    0 ≤ calculateScore 31.22 120.45 ⟨120.45, 31.22, "简单", 0, 360, "spot"⟩ 90 45 ∧
    calculateScore 31.22 120.45 ⟨120.45, 31.22, "简单", 0, 360, "spot"⟩ 90 45 ≤ 100 := by
  have h := score_bounded 31.22 120.45 ⟨120.45, 31.22, "简单", 0, 360, "spot"⟩ 90 45
    (by norm_num) (by norm_num) (by norm_num) (by norm_num) (by norm_num) (by norm_num)
  exact ⟨by norm_num, by norm_num, h.2.2.2.2.2.1, h.2.2.2.2.2.2⟩

/-- Witness for `canObserve_spec`: the direct-window characterisation
applied to the 30°–90° window at azimuth 60. -/
theorem canObserve_spec_witness :
    (30:ℝ) ≤ 90 ∧
    (canObserveAzimuth ⟨0, 0, "", 30, 90, ""⟩ 60 ↔
      (30:ℝ) ≤ pyMod 60 360 ∧ pyMod 60 360 ≤ 90) :=
  ⟨by norm_num, canObserve_spec.2.2.1 ⟨0, 0, "", 30, 90, ""⟩ 60 (by norm_num)⟩

/-! ## AHP weight resolver: claims C3 and C9 -/

theorem ahpCols_pos {a b c d e f : ℚ} (ha : 0 < a) (hb : 0 < b) (hc : 0 < c)
    (hd : 0 < d) (he : 0 < e) (hf : 0 < f) :
    0 < ahpCol0 a b d ∧ 0 < ahpCol1 a c e ∧ 0 < ahpCol2 b c f ∧ 0 < ahpCol3 d e f := by
  have h1 := one_div_pos.2 ha
  have h2 := one_div_pos.2 hb
  have h3 := one_div_pos.2 hc
  have h4 := one_div_pos.2 hd
  have h5 := one_div_pos.2 he
  have h6 := one_div_pos.2 hf
  refine ⟨?_, ?_, ?_, ?_⟩ <;> simp only [ahpCol0, ahpCol1, ahpCol2, ahpCol3] <;> linarith

theorem ahp_some_of_cols_ne {a b c d e f : ℚ}
    (ha : a ≠ 0) (hb : b ≠ 0) (hc : c ≠ 0) (hd : d ≠ 0) (he : e ≠ 0) (hf : f ≠ 0)
    (h0 : ahpCol0 a b d ≠ 0) (h1 : ahpCol1 a c e ≠ 0)
    (h2 : ahpCol2 b c f ≠ 0) (h3 : ahpCol3 d e f ≠ 0) :
    calculateAhpWeights a b c d e f = some
      ((1 / ahpCol0 a b d + a / ahpCol1 a c e + b / ahpCol2 b c f + d / ahpCol3 d e f) / 4,
       (1 / a / ahpCol0 a b d + 1 / ahpCol1 a c e + c / ahpCol2 b c f + e / ahpCol3 d e f) / 4,
       (1 / b / ahpCol0 a b d + 1 / c / ahpCol1 a c e + 1 / ahpCol2 b c f +
         f / ahpCol3 d e f) / 4,
       (1 / d / ahpCol0 a b d + 1 / e / ahpCol1 a c e + 1 / f / ahpCol2 b c f +
         1 / ahpCol3 d e f) / 4) := by
  simp only [calculateAhpWeights]
  rw [if_neg (by push_neg; exact ⟨ha, hb, hc, hd, he, hf⟩),
    if_neg (by push_neg; exact ⟨h0, h1, h2, h3⟩)]

/-- **C3.** For strictly positive ratios the AHP resolver succeeds and its
four weights sum exactly to 1 (in particular within the 1e-9 tolerance), and
with all six ratios equal to 1 each weight is 1/4. -/
theorem ahp_weights_normalized :
    (∀ a b c d e f : ℚ, 0 < a → 0 < b → 0 < c → 0 < d → 0 < e → 0 < f →
      ∃ w1 w2 w3 w4, calculateAhpWeights a b c d e f = some (w1, w2, w3, w4) ∧
        w1 + w2 + w3 + w4 = 1 ∧ |w1 + w2 + w3 + w4 - 1| ≤ 1 / 1000000000) ∧
    calculateAhpWeights 1 1 1 1 1 1 = some (1/4, 1/4, 1/4, 1/4) := by
  constructor
  · intro a b c d e f ha hb hc hd he hf
    obtain ⟨h0, h1, h2, h3⟩ := ahpCols_pos ha hb hc hd he hf
    refine ⟨_, _, _, _,
      ahp_some_of_cols_ne ha.ne' hb.ne' hc.ne' hd.ne' he.ne' hf.ne'
        h0.ne' h1.ne' h2.ne' h3.ne', ?_⟩
    have hsum :
        (1 / ahpCol0 a b d + a / ahpCol1 a c e + b / ahpCol2 b c f + d / ahpCol3 d e f) / 4 +
        (1 / a / ahpCol0 a b d + 1 / ahpCol1 a c e + c / ahpCol2 b c f +
          e / ahpCol3 d e f) / 4 +
        (1 / b / ahpCol0 a b d + 1 / c / ahpCol1 a c e + 1 / ahpCol2 b c f +
          f / ahpCol3 d e f) / 4 +
        (1 / d / ahpCol0 a b d + 1 / e / ahpCol1 a c e + 1 / f / ahpCol2 b c f +
          1 / ahpCol3 d e f) / 4 = 1 := by
      calc
        (1 / ahpCol0 a b d + a / ahpCol1 a c e + b / ahpCol2 b c f + d / ahpCol3 d e f) / 4 +
        (1 / a / ahpCol0 a b d + 1 / ahpCol1 a c e + c / ahpCol2 b c f +
          e / ahpCol3 d e f) / 4 +
        (1 / b / ahpCol0 a b d + 1 / c / ahpCol1 a c e + 1 / ahpCol2 b c f +
          f / ahpCol3 d e f) / 4 +
        (1 / d / ahpCol0 a b d + 1 / e / ahpCol1 a c e + 1 / f / ahpCol2 b c f +
          1 / ahpCol3 d e f) / 4
          = (ahpCol0 a b d / ahpCol0 a b d + ahpCol1 a c e / ahpCol1 a c e +
              ahpCol2 b c f / ahpCol2 b c f + ahpCol3 d e f / ahpCol3 d e f) / 4 := by
            simp only [ahpCol0, ahpCol1, ahpCol2, ahpCol3]
            ring
        _ = 1 := by
            rw [div_self h0.ne', div_self h1.ne', div_self h2.ne', div_self h3.ne']
            norm_num
    exact ⟨hsum, by rw [hsum]; norm_num⟩
  · norm_num [calculateAhpWeights, ahpCol0, ahpCol1, ahpCol2, ahpCol3]

/-- Witness for `ahp_weights_normalized`: all ratios 2. -/
theorem ahp_weights_normalized_witness :
    (0:ℚ) < 2 ∧
    ∃ w1 w2 w3 w4, calculateAhpWeights 2 2 2 2 2 2 = some (w1, w2, w3, w4) ∧
      w1 + w2 + w3 + w4 = 1 ∧ |w1 + w2 + w3 + w4 - 1| ≤ 1 / 1000000000 :=
  ⟨by norm_num, ahp_weights_normalized.1 2 2 2 2 2 2 (by norm_num) (by norm_num)
    (by norm_num) (by norm_num) (by norm_num) (by norm_num)⟩

/-- Counterexample to C9 as stated: with ratios `a = -1, b = 1, c = 1,
d = -1, e = 1, f = 1` — none of which is 0 — column 0 of the comparison
matrix sums to `1 - 1 + 1 - 1 = 0`, the normalisation divides by zero, and
the resolver returns no result. -/
theorem ahp_fails_without_zero_ratio :
    calculateAhpWeights (-1) 1 1 (-1) 1 1 = none ∧
    (-1 : ℚ) ≠ 0 ∧ (1 : ℚ) ≠ 0 := by
  refine ⟨by norm_num [calculateAhpWeights, ahpCol0, ahpCol1, ahpCol2, ahpCol3],
    by norm_num, by norm_num⟩

/-- **C9** (amended).  The AHP resolver fails exactly on
division-by-zero-class input: a ratio equal to 0, or a zero column sum in
the comparison matrix (which requires some ratio to be negative); in
particular, for every input whose six ratios are all strictly positive it
returns a weight assignment. -/
theorem ahp_failure_characterization :
    (∀ a b c d e f : ℚ, calculateAhpWeights a b c d e f = none ↔
      ((a = 0 ∨ b = 0 ∨ c = 0 ∨ d = 0 ∨ e = 0 ∨ f = 0) ∨
       (ahpCol0 a b d = 0 ∨ ahpCol1 a c e = 0 ∨ ahpCol2 b c f = 0 ∨
        ahpCol3 d e f = 0))) ∧
    (∀ a b c d e f : ℚ, 0 < a → 0 < b → 0 < c → 0 < d → 0 < e → 0 < f →
      (calculateAhpWeights a b c d e f).isSome) := by
  constructor
  · intro a b c d e f
    simp only [calculateAhpWeights]
    split_ifs with hA hB
    · simp [hA]
    · simp [hB]
    · simp [hA, hB]
  · intro a b c d e f ha hb hc hd he hf
    obtain ⟨h0, h1, h2, h3⟩ := ahpCols_pos ha hb hc hd he hf
    rw [ahp_some_of_cols_ne ha.ne' hb.ne' hc.ne' hd.ne' he.ne' hf.ne'
      h0.ne' h1.ne' h2.ne' h3.ne']
    rfl

/-- Witness for `ahp_failure_characterization`: all ratios 3. -/
theorem ahp_failure_characterization_witness :
    (0:ℚ) < 3 ∧ (calculateAhpWeights 3 3 3 3 3 3).isSome :=
  ⟨by norm_num, ahp_failure_characterization.2 3 3 3 3 3 3 (by norm_num) (by norm_num)
    (by norm_num) (by norm_num) (by norm_num) (by norm_num)⟩

/-! ## Ranking: claim C7 -/

/-- **C7.** `rank_points` returns the scored candidates sorted in descending
order of score, it is a permutation of the scored input, and it is stable:
any pair appearing in the input order whose scores are identical still
appears in that relative order in the ranking. -/
theorem rank_points_sorted_stable (avgLat avgLon az alt : ℝ)
    (pts : List ObservationPoint) :
    (rankPoints avgLat avgLon pts az alt).Pairwise (fun x y => y.2 ≤ x.2) ∧
    rankPoints avgLat avgLon pts az alt ~
      pts.map (fun p => (p, calculateScore avgLat avgLon p az alt)) ∧
    (∀ x y : ObservationPoint × ℝ,
      [x, y] <+ pts.map (fun p => (p, calculateScore avgLat avgLon p az alt)) →
      x.2 = y.2 → [x, y] <+ rankPoints avgLat avgLon pts az alt) := by
  refine ⟨?_, ?_, ?_⟩
  · exact List.sorted_insertionSort (scoreDesc Prod.snd) _
  · exact List.perm_insertionSort _ _
  · intro x y h heq
    exact List.pair_sublist_insertionSort (le_of_eq heq.symm) h

/-- Witness for `rank_points_sorted_stable`: two points with identical
configurations (hence identical scores) and different names keep their input
order in the ranking. -/
theorem rank_points_sorted_stable_witness :
    [((⟨120, 31, "简单", 0, 360, "a"⟩ : ObservationPoint),
        calculateScore 0 0 ⟨120, 31, "简单", 0, 360, "a"⟩ 90 45),
     ((⟨120, 31, "简单", 0, 360, "b"⟩ : ObservationPoint),
        calculateScore 0 0 ⟨120, 31, "简单", 0, 360, "b"⟩ 90 45)] <+
      rankPoints 0 0 [⟨120, 31, "简单", 0, 360, "a"⟩, ⟨120, 31, "简单", 0, 360, "b"⟩]
        90 45 :=
  (rank_points_sorted_stable 0 0 90 45
      [⟨120, 31, "简单", 0, 360, "a"⟩, ⟨120, 31, "简单", 0, 360, "b"⟩]).2.2
    _ _ (by simp) rfl

/-! ## Recommendation orchestrator: claim C4 -/

theorem rankPoints_length (avgLat avgLon az alt : ℝ) (pts : List ObservationPoint) :
    (rankPoints avgLat avgLon pts az alt).length = pts.length := by
  simp [rankPoints, (List.perm_insertionSort _ _).length_eq]

/-- **C4.** `recommend_for_star` returns `None` exactly when the target name
could not be resolved, the resolved altitude is ≤ 0 (`observable` is
`altitude > 0`), or no observation point's view window covers the resolved
azimuth; in every other case it returns a recommendation whose best point is
the head of the (non-empty) full ranking. -/
theorem recommend_notfound_iff (avgLat avgLon : ℝ) (pts : List ObservationPoint)
    (starInfo : Option StarInfo) :
    (recommendForStar avgLat avgLon pts starInfo = none ↔
      starInfo = none ∨ ∃ si, starInfo = some si ∧
        (si.altitude ≤ 0 ∨ findSuitablePoints pts si.azimuth = [])) ∧
    (∀ si, starInfo = some si → 0 < si.altitude →
      findSuitablePoints pts si.azimuth ≠ [] →
      recommendForStar avgLat avgLon pts starInfo = some
        ⟨si, (rankPoints avgLat avgLon (findSuitablePoints pts si.azimuth)
            si.azimuth si.altitude).headI,
          rankPoints avgLat avgLon (findSuitablePoints pts si.azimuth)
            si.azimuth si.altitude⟩ ∧
      rankPoints avgLat avgLon (findSuitablePoints pts si.azimuth)
        si.azimuth si.altitude ≠ []) := by
  cases starInfo with
  | none => simp [recommendForStar]
  | some si =>
    simp only [recommendForStar]
    by_cases halt : 0 < si.altitude
    · rw [if_neg (not_not.2 halt)]
      by_cases hemp : (findSuitablePoints pts si.azimuth).isEmpty = true
      · rw [if_pos hemp]
        have hemp' : findSuitablePoints pts si.azimuth = [] := by
          simpa using hemp
        constructor
        · simp only [true_iff]
          exact Or.inr ⟨si, rfl, Or.inr hemp'⟩
        · intro si' hsi' _ hne
          cases Option.some_inj.1 hsi'
          exact absurd hemp' hne
      · rw [if_neg hemp]
        have hne : findSuitablePoints pts si.azimuth ≠ [] := by
          intro h
          exact hemp (by simp [h])
        have hrne : rankPoints avgLat avgLon (findSuitablePoints pts si.azimuth)
            si.azimuth si.altitude ≠ [] := by
          intro h
          apply hne
          have hl := rankPoints_length avgLat avgLon si.azimuth si.altitude
            (findSuitablePoints pts si.azimuth)
          rw [h] at hl
          exact List.length_eq_zero.1 hl.symm
        constructor
        · refine ⟨fun h => Option.noConfusion h, ?_⟩
          rintro (h | ⟨si', hsi', h | h⟩)
          · exact Option.noConfusion h
          · cases Option.some_inj.1 hsi'
            exact absurd h (not_le.2 halt)
          · cases Option.some_inj.1 hsi'
            exact absurd h hne
        · intro si' hsi' _ _
          cases Option.some_inj.1 hsi'
          exact ⟨rfl, hrne⟩
    · rw [if_pos halt]
      constructor
      · simp only [true_iff]
        exact Or.inr ⟨si, rfl, Or.inl (not_lt.1 halt)⟩
      · intro si' hsi' halt' _
        cases Option.some_inj.1 hsi'
        exact absurd halt' halt

/-- Witness for `recommend_notfound_iff`: a full-view point observing a
target at azimuth 90, altitude 45 yields a recommendation. -/
theorem recommend_notfound_iff_witness :
    (0:ℝ) < 45 ∧
    findSuitablePoints [⟨0, 0, "简单", 0, 360, "p"⟩] (90:ℝ) ≠ [] ∧
    recommendForStar 31.22 120.45 [⟨0, 0, "简单", 0, 360, "p"⟩]
      (some ⟨90, 45⟩) ≠ none := by
  have hobs : canObserveAzimuth ⟨0, 0, "简单", 0, 360, "p"⟩ 90 := by
    simp only [canObserveAzimuth,
      pyMod_eq_self (by norm_num : (0:ℝ) ≤ 90) (by norm_num : (90:ℝ) < 360)]
    norm_num
  have hsuit : findSuitablePoints [⟨0, 0, "简单", 0, 360, "p"⟩] (90:ℝ) ≠ [] := by
    have hmem : (⟨0, 0, "简单", 0, 360, "p"⟩ : ObservationPoint) ∈
        findSuitablePoints [⟨0, 0, "简单", 0, 360, "p"⟩] (90:ℝ) := by
      simp only [findSuitablePoints, List.mem_filter]
      exact ⟨by simp, @decide_eq_true _ (Classical.propDecidable _) hobs⟩
    intro h
    rw [h] at hmem
    exact List.not_mem_nil _ hmem
  have h := (recommend_notfound_iff 31.22 120.45 [⟨0, 0, "简单", 0, 360, "p"⟩]
    (some ⟨90, 45⟩)).2 ⟨90, 45⟩ rfl (by norm_num) hsuit
  refine ⟨by norm_num, hsuit, ?_⟩
  rw [h.1]
  simp

/-! ## Terrain occlusion: claim C5 -/

theorem atan2_of_pos {y x : ℝ} (hx : 0 < x) : atan2 y x = arctan (y / x) := by
  simp only [atan2, if_pos hx]

theorem pyMod_360_360 : pyMod 360 360 = 0 := by
  simp [pyMod, show (360:ℝ) / 360 = 1 by norm_num]

/-- The bearing from `(0°, 0°)` to a point due north of it
(same longitude, latitude `(50/6371000)·(180/π)` degrees, i.e. `50/6371000`
radians) is exactly 0°. -/
theorem bearing_north : calculateBearing 0 0 (50 / 6371000 * 180 / π) 0 = 0 := by
  have hpi := Real.pi_pos
  have ht : radians (50 / 6371000 * 180 / π) = 50 / 6371000 := by
    simp only [radians]
    field_simp
    ring
  have hsin : 0 < Real.sin (50 / 6371000 : ℝ) :=
    Real.sin_pos_of_pos_of_lt_pi (by norm_num)
      (by nlinarith [Real.pi_gt_three])
  simp only [calculateBearing, sub_zero, ht,
    show radians 0 = 0 by simp [radians],
    Real.sin_zero, Real.cos_zero, zero_mul, one_mul, mul_one]
  rw [atan2_of_pos hsin, zero_div, Real.arctan_zero]
  simp only [degrees, zero_mul, zero_div, zero_add]
  exact pyMod_360_360

/-- The haversine distance from `(0°, 0°)` to the same due-north point is
exactly 50 metres. -/
theorem distance_north : calculateDistance 0 0 (50 / 6371000 * 180 / π) 0 = 50 := by
  have hpi := Real.pi_pos
  have hpi3 := Real.pi_gt_three
  have ht : radians (50 / 6371000 * 180 / π) = 50 / 6371000 := by
    simp only [radians]
    field_simp
    ring
  have ht2 : (0:ℝ) < 50 / 6371000 := by norm_num
  have hhalf0 : (0:ℝ) ≤ 50 / 6371000 / 2 := by norm_num
  have hhalfpi : (50 / 6371000 : ℝ) / 2 < π / 2 := by nlinarith
  have hsin0 : 0 ≤ Real.sin ((50 / 6371000 : ℝ) / 2) :=
    Real.sin_nonneg_of_nonneg_of_le_pi hhalf0 (by nlinarith)
  have hcos0 : 0 < Real.cos ((50 / 6371000 : ℝ) / 2) :=
    Real.cos_pos_of_mem_Ioo ⟨by nlinarith, hhalfpi⟩
  simp only [calculateDistance, sub_zero, ht,
    show radians 0 = 0 by simp [radians],
    show (0:ℝ) / 2 = 0 by norm_num, Real.sin_zero, Real.cos_zero, one_mul,
    show ((0:ℝ)) ^ 2 = 0 by norm_num, mul_zero, add_zero]
  rw [Real.sqrt_sq hsin0,
    show 1 - Real.sin ((50 / 6371000 : ℝ) / 2) ^ 2 =
      Real.cos ((50 / 6371000 : ℝ) / 2) ^ 2 from (Real.cos_sq' _).symm,
    Real.sqrt_sq hcos0.le, atan2_of_pos hcos0, ← Real.tan_eq_sin_div_cos,
    Real.arctan_tan (by nlinarith) hhalfpi]
  norm_num

/-- `arctan (4/5)` exceeds 10° (i.e. `π/18` radians): the implied elevation
angle of the occlusion example. -/
theorem arctan_four_fifths_gt : π / 18 < arctan (4 / 5) := by
  have hpi := Real.pi_pos
  have h6 : arctan (1 / Real.sqrt 3) = π / 6 := by
    rw [← Real.tan_pi_div_six]
    exact Real.arctan_tan (by linarith) (by linarith)
  have hs3 : (5/4 : ℝ) ≤ Real.sqrt 3 := by
    rw [Real.le_sqrt (by norm_num) (by norm_num)]
    norm_num
  have hs3pos : (0:ℝ) < Real.sqrt 3 := by linarith
  have hle : (1 / Real.sqrt 3 : ℝ) ≤ 4 / 5 := by
    rw [div_le_div_iff₀ hs3pos (by norm_num)]
    linarith
  have hmono : arctan (1 / Real.sqrt 3) ≤ arctan (4 / 5) :=
    Real.arctan_strictMono.monotone hle
  rw [h6] at hmono
  linarith

/-- **C5.** A target above 60° altitude is never occluded; otherwise a
sample is occluded exactly when some other sample of strictly greater
elevation lies within 10° of the target azimuth at a distance of at least
10 m and subtends an elevation angle exceeding the target altitude.
Concretely: sample B at elevation 50, exactly 50 m due north (bearing 0°) of
sample A at elevation 10, occludes A for a target at azimuth 0°,
altitude 10°. -/
theorem occlusion_spec :
    (∀ (s : ElevationSample) (pts : List ElevationSample) (az alt : ℝ),
      60 < alt → ¬ checkOcclusion s pts az alt) ∧
    (∀ (s : ElevationSample) (pts : List ElevationSample) (az alt : ℝ), alt ≤ 60 →
      (checkOcclusion s pts az alt ↔ ∃ o ∈ pts, o ≠ s ∧
        s.elevation < o.elevation ∧
        angleDelta (calculateBearing s.latitude s.longitude
          o.latitude o.longitude) az < 10 ∧
        10 ≤ calculateDistance s.latitude s.longitude o.latitude o.longitude ∧
        alt < degrees (atan2 (o.elevation - s.elevation)
          (calculateDistance s.latitude s.longitude o.latitude o.longitude)))) ∧
    calculateBearing 0 0 (50 / 6371000 * 180 / π) 0 = 0 ∧
    calculateDistance 0 0 (50 / 6371000 * 180 / π) 0 = 50 ∧
    checkOcclusion ⟨0, 0, 10⟩
      [⟨0, 0, 10⟩, ⟨50 / 6371000 * 180 / π, 0, 50⟩] 0 10 := by
  refine ⟨?_, ?_, bearing_north, distance_north, ?_⟩
  · intro s pts az alt h60 hocc
    exact hocc.1 h60
  · intro s pts az alt halt
    simp only [checkOcclusion, occludes, not_le, not_lt]
    constructor
    · rintro ⟨-, o, ho, h1, h2, h3, h4, h5⟩
      exact ⟨o, ho, h1, h2, h3, h4, h5⟩
    · rintro ⟨o, ho, h1, h2, h3, h4, h5⟩
      exact ⟨halt, o, ho, h1, h2, h3, h4, h5⟩
  · have hne : (⟨50 / 6371000 * 180 / π, 0, 50⟩ : ElevationSample) ≠ ⟨0, 0, 10⟩ := by
      intro h
      have h50 := congrArg ElevationSample.elevation h
      norm_num at h50
    refine ⟨by norm_num, ⟨50 / 6371000 * 180 / π, 0, 50⟩, by simp, hne, ?_, ?_, ?_, ?_⟩
    · show ¬ (50:ℝ) ≤ 10
      norm_num
    · show angleDelta (calculateBearing 0 0 (50 / 6371000 * 180 / π) 0) 0 < 10
      rw [bearing_north]
      norm_num [angleDelta]
    · show ¬ calculateDistance 0 0 (50 / 6371000 * 180 / π) 0 < 10
      rw [distance_north]
      norm_num
    · show (10:ℝ) < degrees (atan2 ((50:ℝ) - 10)
        (calculateDistance 0 0 (50 / 6371000 * 180 / π) 0))
      rw [distance_north, show (50:ℝ) - 10 = 40 by norm_num,
        atan2_of_pos (by norm_num : (0:ℝ) < 50),
        show (40:ℝ) / 50 = 4 / 5 by norm_num]
      have hpi := Real.pi_pos
      have h18 := arctan_four_fifths_gt
      simp only [degrees]
      rw [lt_div_iff₀ hpi]
      nlinarith

/-- Witness for `occlusion_spec`: a target at 70° altitude is never
occluded. -/
theorem occlusion_spec_witness :
    (60:ℝ) < 70 ∧ ¬ checkOcclusion ⟨0, 0, 10⟩ [] 0 70 :=
  ⟨by norm_num, occlusion_spec.1 ⟨0, 0, 10⟩ [] 0 70 (by norm_num)⟩

/-! ## Terrain analyzer: claims C8 and C10 -/

/-- A `for` loop that `continue`s on `P` and appends `g p` otherwise is the
map of `g` over the list filtered by `¬ P`. -/
theorem foldl_skip_eq {α β : Type} (P : α → Prop) [DecidablePred P] (g : α → β) :
    ∀ (l : List α) (acc : List β),
      l.foldl (fun acc p => if P p then acc else acc ++ [g p]) acc
        = acc ++ (l.filter (fun p => decide (¬ P p))).map g := by
  intro l
  induction l with
  | nil => intro acc; simp
  | cons a l ih =>
    intro acc
    simp only [List.foldl_cons, List.filter_cons]
    by_cases h : P a
    · rw [if_pos h, ih, show (decide (¬ P a)) = false by simp [h]]
      simp
    · rw [if_neg h, ih, show (decide (¬ P a)) = true by simp [h]]
      simp

theorem mem_validSpots {points : List ElevationSample} {p : ElevationSample} :
    p ∈ validSpots points ↔ p ∈ points ∧ MIN_ELEVATION < p.elevation := by
  simp only [validSpots, List.mem_filter, decide_eq_true_eq]

theorem not_checkOcclusion_of_max {s : ElevationSample}
    {pts : List ElevationSample} {az alt : ℝ}
    (hmax : ∀ o ∈ pts, o.elevation ≤ s.elevation) :
    ¬ checkOcclusion s pts az alt := by
  rintro ⟨-, o, ho, -, hgt, -⟩
  exact hgt (hmax o ho)

theorem exists_max_elevation :
    ∀ (l : List ElevationSample), l ≠ [] →
      ∃ m ∈ l, ∀ o ∈ l, o.elevation ≤ m.elevation := by
  intro l
  induction l with
  | nil => intro h; exact absurd rfl h
  | cons a l ih =>
    intro _
    rcases eq_or_ne l [] with rfl | hl
    · exact ⟨a, by simp, by simp⟩
    · obtain ⟨m, hm, hmax⟩ := ih hl
      rcases le_total m.elevation a.elevation with h | h
      · refine ⟨a, by simp, ?_⟩
        intro o ho
        rcases List.mem_cons.1 ho with rfl | ho
        · exact le_refl _
        · exact le_trans (hmax o ho) h
      · refine ⟨m, List.mem_cons_of_mem _ hm, ?_⟩
        intro o ho
        rcases List.mem_cons.1 ho with rfl | ho
        · exact h
        · exact hmax o ho

open Classical in
/-- **C8.** `_analyze_spots` keeps exactly the samples above the water-level
threshold, drops the occluded ones, scores each survivor by the composite
`0.3·elevation + 0.1·edge + 0.6·direction` (target azimuth given) or
`0.7·elevation + 0.3·edge` (no target azimuth), rounded to one decimal, and
returns the first ten of the stable descending sort by that score. -/
theorem analyzeSpots_spec (points : List ElevationSample)
    (az alt : Option ℝ) :
    analyzeSpots points az alt =
      (insertionSort (scoreDesc TerrainSpot.score)
        (((validSpots points).filter
            (fun p => decide (¬ occlusionApplies p (validSpots points) az alt))).map
          (fun p => mkSpot p (pyMax ((validSpots points).map (·.elevation))) az))).take
        10 ∧
    (∀ p, p ∈ validSpots points ↔ p ∈ points ∧ MIN_ELEVATION < p.elevation) ∧
    (∀ (p : ElevationSample) (maxEle azv : ℝ),
      (mkSpot p maxEle (some azv)).score =
        pyRound1 (0.3 * elevationScore p maxEle + 0.1 * distScore p +
          0.6 * dirScore p (some azv))) ∧
    (∀ (p : ElevationSample) (maxEle : ℝ),
      (mkSpot p maxEle none).score =
        pyRound1 (0.7 * elevationScore p maxEle + 0.3 * distScore p)) ∧
    (analyzeSpots points az alt).Pairwise (fun x y => y.score ≤ x.score) ∧
    (analyzeSpots points az alt).length ≤ 10 := by
  have hmain : analyzeSpots points az alt =
      (insertionSort (scoreDesc TerrainSpot.score)
        (((validSpots points).filter
            (fun p => decide (¬ occlusionApplies p (validSpots points) az alt))).map
          (fun p => mkSpot p (pyMax ((validSpots points).map (·.elevation))) az))).take
        10 := by
    simp only [analyzeSpots]
    by_cases hemp : (validSpots points).isEmpty = true
    · rw [if_pos hemp]
      have h : validSpots points = [] := by simpa using hemp
      rw [h]
      simp [List.insertionSort]
    · rw [if_neg hemp, foldl_skip_eq]
      rw [List.nil_append]
  refine ⟨hmain, fun p => mem_validSpots, fun p maxEle azv => rfl, fun p maxEle => rfl,
    ?_, ?_⟩
  · rw [hmain]
    exact ((List.sorted_insertionSort (scoreDesc TerrainSpot.score) _).sublist
      (List.take_sublist _ _))
  · rw [hmain]
    exact le_trans (List.length_take_le _ _) (le_refl _)

open Classical in
/-- **C10.** Since an occluder must have strictly greater elevation, a
sample of maximal elevation among the valid samples is never occluded;
consequently the analyzer returns a non-empty list whenever some sample
lies above the water level, for every target azimuth/altitude. -/
theorem terrain_result_nonempty :
    (∀ (s : ElevationSample) (pts : List ElevationSample) (az alt : ℝ),
      (∀ o ∈ pts, o.elevation ≤ s.elevation) → ¬ checkOcclusion s pts az alt) ∧
    (∀ (points : List ElevationSample) (az alt : Option ℝ),
      (∃ p ∈ points, MIN_ELEVATION < p.elevation) →
        analyzeSpots points az alt ≠ []) := by
  constructor
  · intro s pts az alt hmax
    exact not_checkOcclusion_of_max hmax
  · rintro points az alt ⟨p, hp, hpe⟩
    have hpv : p ∈ validSpots points := mem_validSpots.2 ⟨hp, hpe⟩
    have hvne : validSpots points ≠ [] := List.ne_nil_of_mem hpv
    obtain ⟨m, hm, hmax⟩ := exists_max_elevation _ hvne
    have hnocc : ¬ occlusionApplies m (validSpots points) az alt := by
      rintro ⟨az', alt', -, -, hocc⟩
      exact not_checkOcclusion_of_max (fun o ho => hmax o ho) hocc
    have hkeep : m ∈ (validSpots points).filter
        (fun q => decide (¬ occlusionApplies q (validSpots points) az alt)) :=
      List.mem_filter.2 ⟨hm, decide_eq_true hnocc⟩
    simp only [analyzeSpots]
    rw [if_neg (by simpa [List.isEmpty_iff] using hvne), foldl_skip_eq]
    simp only [List.nil_append]
    intro htake
    rcases List.take_eq_nil_iff.1 htake with h10 | hsort
    · exact absurd h10 (by norm_num)
    · have hlen := (List.perm_insertionSort (scoreDesc TerrainSpot.score)
        (((validSpots points).filter
            (fun q => decide (¬ occlusionApplies q (validSpots points) az alt))).map
          (fun q => mkSpot q (pyMax ((validSpots points).map (·.elevation))) az))).length_eq
      rw [hsort] at hlen
      have : m ∈ ([] : List ElevationSample) := by
        have hmap : (((validSpots points).filter
            (fun q => decide (¬ occlusionApplies q (validSpots points) az alt))).map
          (fun q => mkSpot q (pyMax ((validSpots points).map (·.elevation))) az)) = [] :=
          List.eq_nil_of_length_eq_zero hlen.symm
        have := List.map_eq_nil_iff.1 hmap
        rw [this] at hkeep
        exact hkeep
      exact List.not_mem_nil _ this

/-- Witness for `analyzeSpots_spec`: the length bound at a concrete run. -/
theorem analyzeSpots_spec_witness :
    (analyzeSpots [] none none).length ≤ 10 :=
  (analyzeSpots_spec [] none none).2.2.2.2.2

/-- Witness for `terrain_result_nonempty`: a single above-water sample
yields a non-empty result. -/
theorem terrain_result_nonempty_witness :
    (∃ p ∈ [(⟨0, 0, 10⟩ : ElevationSample)], MIN_ELEVATION < p.elevation) ∧
    analyzeSpots [⟨0, 0, 10⟩] none none ≠ [] := by
  have hex : ∃ p ∈ [(⟨0, 0, 10⟩ : ElevationSample)], MIN_ELEVATION < p.elevation :=
    ⟨⟨0, 0, 10⟩, by simp, by norm_num [MIN_ELEVATION]⟩
  exact ⟨hex, terrain_result_nonempty.2 [⟨0, 0, 10⟩] none none hex⟩

end SanShan
